import Mathlib

/-
A shallow embedding of the Runtime module of the WAVM repository
(Source/Runtime/Runtime.cpp): the invocation bridge `invokeFunction`, the
type-conformance checker `isA`, the call-stack describer `describeCallStack`,
the exception factory `causeException`, and the global cell operations
`createGlobal` / `getGlobalValue` / `setGlobalValue`.

External collaborators (the LLVM JIT, the platform layer's call-stack capture
and hardware-trap interception, and the table/memory address-ownership
predicates) are modelled as components of an explicit `Platform` record, so
every operation is a pure function of its inputs and that record.
-/

set_option autoImplicit false

namespace Runtime

/-- The value-type tag of a tagged runtime value. -/
inductive ValueType
  | i32
  | i64
  | f32
  | f64
deriving DecidableEq, Repr

/-- The result type of a function signature: none, or exactly one value type. -/
inductive ResultType
  | none
  | i32
  | i64
  | f32
  | f64
deriving DecidableEq, Repr

/-- `getArity`: the number of result slots a result type occupies (0 or 1). -/
def getArity : ResultType → Nat
  | ResultType.none => 0
  | _ => 1

/-- A tagged value: a value-type tag and the raw 64-bit payload of the union,
read through its `i64` member as `invokeFunction` does. -/
structure Value where
  type : ValueType
  i64 : Nat
deriving DecidableEq, Repr

/-- The result of an invocation: a result-type tag and a raw 64-bit payload.
A default-constructed result is `⟨ResultType.none, 0⟩`. -/
structure Result where
  type : ResultType
  i64 : Nat
deriving DecidableEq, Repr

/-- A function signature: ordered parameter value types and a result type. -/
structure FunctionType where
  parameters : List ValueType
  ret : ResultType
deriving DecidableEq, Repr

/-- A size bound on a table or memory: minimum and maximum allowed size. -/
structure SizeConstraints where
  min : Nat
  max : Nat
deriving DecidableEq, Repr

/-- The element type of a table. -/
inductive TableElementType
  | anyfunc
deriving DecidableEq, Repr

/-- The type of a table: element type plus a size bound. -/
structure TableType where
  elementType : TableElementType
  size : SizeConstraints
deriving DecidableEq, Repr

/-- The type of a memory: a size bound. -/
structure MemoryType where
  size : SizeConstraints
deriving DecidableEq, Repr

/-- The type of a global: a value type and a mutability flag. -/
structure GlobalType where
  valueType : ValueType
  isMutable : Bool
deriving DecidableEq, Repr

/-- The kind discriminant carried by every runtime object. -/
inductive ObjectKind
  | function
  | table
  | memory
  | global
deriving DecidableEq, Repr

/-- An expected object type: a tagged variant over the four object kinds. -/
inductive ObjectType
  | function (f : FunctionType)
  | table (t : TableType)
  | memory (m : MemoryType)
  | global (g : GlobalType)
deriving DecidableEq, Repr

/-- The kind tag of an expected object type. -/
def ObjectType.kind : ObjectType → ObjectKind
  | ObjectType.function _ => ObjectKind.function
  | ObjectType.table _ => ObjectKind.table
  | ObjectType.memory _ => ObjectKind.memory
  | ObjectType.global _ => ObjectKind.global

/-- A function instance: its signature and an opaque handle standing for the
native entry point (`nativeFunction`). -/
structure FunctionInstance where
  type : FunctionType
  nativeFunction : Nat
deriving DecidableEq, Repr

/-- A global instance: its global type and the stored value. -/
structure GlobalInstance where
  type : GlobalType
  value : Value
deriving DecidableEq, Repr

/-- A table instance, reduced to the data `isA` consults: its table type. -/
structure TableInstance where
  type : TableType
deriving DecidableEq, Repr

/-- A memory instance, reduced to the data `isA` consults: its memory type. -/
structure MemoryInstance where
  type : MemoryType
deriving DecidableEq, Repr

/-- A runtime object handle: one of the four kinds of instances. -/
inductive Object
  | function (f : FunctionInstance)
  | table (t : TableInstance)
  | memory (m : MemoryInstance)
  | global (g : GlobalInstance)
deriving DecidableEq, Repr

/-- The kind discriminant stored on a runtime object. -/
def Object.kind : Object → ObjectKind
  | Object.function _ => ObjectKind.function
  | Object.table _ => ObjectKind.table
  | Object.memory _ => ObjectKind.memory
  | Object.global _ => ObjectKind.global

/-- Modelled from the spec: `isSubset` on size constraints is declared outside
the sources available here (only its call sites in `isA` are). Per the spec's
glossary, "type B is a subset of type A if B's range lies entirely within A's
range"; `isSubset sup sub` decides whether the range of `sub` lies entirely
within the range of `sup`. -/
def isSubset (sup sub : SizeConstraints) : Bool :=
  decide (sup.min ≤ sub.min) && decide (sub.max ≤ sup.max)

/-- `isA`: whether a runtime object handle satisfies an expected object type.
Mirrors the kind pre-check followed by the per-kind switch in Runtime.cpp. -/
def isA (object : Object) (type : ObjectType) : Bool :=
  if type.kind ≠ object.kind then false
  else
    match type, object with
    | ObjectType.function tf, Object.function f => decide (tf = f.type)
    | ObjectType.global tg, Object.global g => decide (tg = g.type)
    | ObjectType.table tt, Object.table t =>
        decide (tt.elementType = t.type.elementType) && isSubset tt.size t.type.size
    | ObjectType.memory tm, Object.memory m => isSubset tm.size m.type.size
    | _, _ => false

/-- One frame of a captured call stack: a raw instruction pointer. -/
structure StackFrame where
  ip : Nat
deriving DecidableEq, Repr

/-- A captured call stack: an ordered list of frames. -/
structure CallStack where
  stackFrames : List StackFrame
deriving DecidableEq, Repr

/-- The closed enumeration of exception causes used by this module. -/
inductive ExceptionCause
  | accessViolation
  | stackOverflow
  | integerDivideByZeroOrIntegerOverflow
  | invokeSignatureMismatch
  | undefinedTableElement
deriving DecidableEq, Repr

/-- A structured exception: a cause plus an ordered call-stack description.
An exception built as `Exception {cause}` has an empty description. -/
structure Exception where
  cause : ExceptionCause
  callStack : List String
deriving DecidableEq, Repr

/-- The kind of a hardware trap reported by the platform's trap interceptor
(the `none` case is represented by `ThunkOutcome.success` instead). -/
inductive HardwareTrapType
  | accessViolation
  | stackOverflow
  | intDivideByZeroOrOverflow
deriving DecidableEq, Repr

/-- The outcome of running the invoke thunk under the platform's hardware-trap
interceptor: either the thunk completes, leaving the (possibly updated)
contents of the thunk memory block, or a hardware trap is intercepted,
reporting its kind, its operand (the faulting address where applicable), and
the call stack captured at the moment of the trap. -/
inductive ThunkOutcome
  | success (thunkMemory : List Nat)
  | trap (trapType : HardwareTrapType) (trapOperand : Nat) (trapCallStack : CallStack)
deriving Repr

/-- The external collaborators of the Runtime module, as one record:
`jitDescribe` is `LLVMJIT::describeInstructionPointer`, `platformDescribe` is
`Platform::describeInstructionPointer`, `capturedCallStack` is what
`Platform::captureCallStack` returns at the current point, `runThunk` is the
native execution of the invoke thunk (given the native function handle and the
thunk memory block) under `Platform::catchHardwareTraps`, and the last two
fields are the table/memory address-ownership predicates. -/
structure Platform where
  jitDescribe : Nat → Option String
  platformDescribe : Nat → Option String
  capturedCallStack : CallStack
  runThunk : Nat → List Nat → ThunkOutcome
  isAddressOwnedByTable : Nat → Bool
  isAddressOwnedByMemory : Nat → Bool

/-- The description of one call-stack frame: the JIT's description if it
recognizes the instruction pointer, else the platform's, else the fixed
placeholder used by Runtime.cpp. -/
def describeFrame (p : Platform) (frame : StackFrame) : String :=
  match p.jitDescribe frame.ip with
  | some frameDescription => frameDescription
  | Option.none =>
    match p.platformDescribe frame.ip with
    | some frameDescription => frameDescription
    | Option.none => "<unknown function>"

/-- The frame-by-frame loop body of `describeCallStack`. -/
def describeFrames (p : Platform) : List StackFrame → List String
  | [] => []
  | frame :: rest => describeFrame p frame :: describeFrames p rest

/-- `describeCallStack`: one description per frame, built by the loop in
Runtime.cpp in frame order. -/
def describeCallStack (p : Platform) (callStack : CallStack) : List String :=
  describeFrames p callStack.stackFrames

/-- `causeException`: captures the current call stack, describes it, and
raises (here: returns, as the raised value) a structured exception carrying
the cause and that description. -/
def causeException (p : Platform) (cause : ExceptionCause) : Exception :=
  let callStack := p.capturedCallStack
  ⟨cause, describeCallStack p callStack⟩

/-- The per-parameter loop of `invokeFunction`: checks each argument's type
against the declared parameter type and copies its raw 64-bit payload into
the next slot; a mismatch raises `invokeSignatureMismatch` (built with an
empty call-stack description, as the direct `throw Exception {cause}` does). -/
def marshalParameters : List ValueType → List Value → Except Exception (List Nat)
  | [], [] => Except.ok []
  | pt :: pts, v :: vs =>
    if pt ≠ v.type then Except.error ⟨ExceptionCause.invokeSignatureMismatch, []⟩
    else Except.map (fun rest => v.i64 :: rest) (marshalParameters pts vs)
  | _, _ => Except.ok []

/-- The trap-time call-stack truncation of `invokeFunction`: when the trap
stack has at least one frame more than the caller's baseline stack, resize it
down by the baseline frame count plus one; otherwise leave it unchanged. -/
def truncateStack (callerStack trapCallStack : CallStack) : CallStack :=
  if trapCallStack.stackFrames.length ≥ callerStack.stackFrames.length + 1 then
    ⟨trapCallStack.stackFrames.take
      (trapCallStack.stackFrames.length - callerStack.stackFrames.length - 1)⟩
  else trapCallStack

/-- How an invocation ends: a returned result, a thrown structured exception,
or a fatal process abort (the `Core::errorf` path, carrying the call-stack
description it logs). -/
inductive InvokeOutcome
  | ok (result : Result)
  | exn (e : Exception)
  | fatal (callStackDescription : List String)
deriving DecidableEq, Repr

/-- `invokeFunction`: checks arity, type-checks and marshals the arguments
into a thunk memory block of (parameter count + result arity) 64-bit slots,
runs the invoke thunk under the hardware-trap interceptor, and either reads
the result back out of the slot after the parameters, or truncates and
describes the trap-time call stack and classifies the trap. -/
def invokeFunction (p : Platform) (function : FunctionInstance)
    (parameters : List Value) : InvokeOutcome :=
  let functionType := function.type
  if parameters.length ≠ functionType.parameters.length then
    InvokeOutcome.exn ⟨ExceptionCause.invokeSignatureMismatch, []⟩
  else
    match marshalParameters functionType.parameters parameters with
    | Except.error e => InvokeOutcome.exn e
    | Except.ok parameterSlots =>
      let thunkMemory := parameterSlots ++ List.replicate (getArity functionType.ret) 0
      let callerStack := p.capturedCallStack
      match p.runThunk function.nativeFunction thunkMemory with
      | ThunkOutcome.success thunkMemoryAfter =>
        if functionType.ret ≠ ResultType.none then
          InvokeOutcome.ok ⟨functionType.ret, thunkMemoryAfter.getD functionType.parameters.length 0⟩
        else
          InvokeOutcome.ok ⟨ResultType.none, 0⟩
      | ThunkOutcome.trap trapType trapOperand trapCallStack =>
        let truncated := truncateStack callerStack trapCallStack
        let callStackDescription := describeCallStack p truncated
        match trapType with
        | HardwareTrapType.accessViolation =>
          if p.isAddressOwnedByTable trapOperand then
            InvokeOutcome.exn ⟨ExceptionCause.undefinedTableElement, callStackDescription⟩
          else if p.isAddressOwnedByMemory trapOperand then
            InvokeOutcome.exn ⟨ExceptionCause.accessViolation, callStackDescription⟩
          else
            InvokeOutcome.fatal callStackDescription
        | HardwareTrapType.stackOverflow =>
          InvokeOutcome.exn ⟨ExceptionCause.stackOverflow, callStackDescription⟩
        | HardwareTrapType.intDivideByZeroOrOverflow =>
          InvokeOutcome.exn ⟨ExceptionCause.integerDivideByZeroOrIntegerOverflow, callStackDescription⟩

/-- `createGlobal`: constructs a new global instance holding the type and the
initial value (the `GlobalInstance` constructor is declared outside the
sources available here; modelled from the spec: it "owns a GlobalType ... and
a current Value"). -/
def createGlobal (type : GlobalType) (initialValue : Value) : GlobalInstance :=
  ⟨type, initialValue⟩

/-- `getGlobalValue`: a fresh `Value` built from the declared value type and
the stored payload. -/
def getGlobalValue (global : GlobalInstance) : Value :=
  ⟨global.type.valueType, global.value.i64⟩

/-- `setGlobalValue`: returns the previous value (built from the declared
value type and the stored payload) and the updated instance storing the new
value. Its preconditions (matching type, mutable global) are assertions in
the source and appear as hypotheses of the theorems below. -/
def setGlobalValue (global : GlobalInstance) (newValue : Value) : Value × GlobalInstance :=
  (⟨global.type.valueType, global.value.i64⟩, ⟨global.type, newValue⟩)

/-- A platform whose describers recognize nothing and whose thunk always
completes; used to instantiate universally quantified theorems. -/
def trivialPlatform : Platform :=
  ⟨fun _ => Option.none, fun _ => Option.none, ⟨[]⟩,
    fun _ _ => ThunkOutcome.success [], fun _ => false, fun _ => false⟩

/-- Marshalling a well-typed argument list succeeds and yields the raw
payloads in parameter order. -/
theorem marshalParameters_ok_of_welltyped (vs : List Value) :
    marshalParameters (vs.map Value.type) vs = Except.ok (vs.map Value.i64) := by
  induction vs with
  | nil => rfl
  | cons v vs ih => simp [marshalParameters, ih, Except.map]

/-- Marshalling an argument list that mismatches the declared parameter type
at some position fails with `invokeSignatureMismatch`. -/
theorem marshalParameters_error_of_mismatch :
    ∀ (pts : List ValueType) (vs : List Value) (i : Nat),
    vs.length = pts.length → i < vs.length →
    (vs.getD i ⟨ValueType.i32, 0⟩).type ≠ pts.getD i ValueType.i32 →
    marshalParameters pts vs = Except.error ⟨ExceptionCause.invokeSignatureMismatch, []⟩ := by
  intro pts
  induction pts with
  | nil =>
    intro vs i hlen hi _
    rw [List.length_nil] at hlen
    omega
  | cons pt pts ih =>
    intro vs i hlen hi hty
    match vs with
    | [] => simp at hlen
    | v :: vs =>
      by_cases hhd : pt = v.type
      · match i with
        | 0 => simp [List.getD] at hty; exact absurd hhd.symm hty
        | i + 1 =>
          have hrec := ih vs i (by simpa using hlen) (by simpa using hi) (by simpa using hty)
          simp [marshalParameters, hhd, hrec, Except.map]
      · simp [marshalParameters, hhd]

/-- Any arity or per-argument type mismatch makes `invokeFunction` raise
`invokeSignatureMismatch` with an empty call-stack description, for every
platform (so independently of the invoke thunk, which is never run). -/
theorem invokeFunction_mismatch_aux (p : Platform) (f : FunctionInstance)
    (args : List Value)
    (h : args.length ≠ f.type.parameters.length ∨
      ∃ i, i < args.length ∧
        (args.getD i ⟨ValueType.i32, 0⟩).type ≠ f.type.parameters.getD i ValueType.i32) :
    invokeFunction p f args = InvokeOutcome.exn ⟨ExceptionCause.invokeSignatureMismatch, []⟩ := by
  by_cases hlen : args.length = f.type.parameters.length
  · rcases h with h | ⟨i, hi, hty⟩
    · exact absurd hlen h
    · unfold invokeFunction
      rw [if_neg (fun hc => hc hlen),
        marshalParameters_error_of_mismatch f.type.parameters args i hlen hi hty]
  · unfold invokeFunction
    rw [if_pos hlen]

/-- C1: for every function handle and argument list, if the argument count
differs from the signature's parameter count, or some argument's value type
differs from the declared parameter type at its position, then
`invokeFunction` raises an exception with cause `invokeSignatureMismatch`;
the platform (and in particular its invoke thunk) is universally quantified
and never consulted, so no native call occurs. -/
theorem invokeFunction_signature_mismatch (p : Platform) (f : FunctionInstance)
    (args : List Value)
    (h : args.length ≠ f.type.parameters.length ∨
      ∃ i, i < args.length ∧
        (args.getD i ⟨ValueType.i32, 0⟩).type ≠ f.type.parameters.getD i ValueType.i32) :
    invokeFunction p f args = InvokeOutcome.exn ⟨ExceptionCause.invokeSignatureMismatch, []⟩ :=
  invokeFunction_mismatch_aux p f args h

/-- Witness for C1: a unary i32 function invoked with no arguments. -/
theorem invokeFunction_signature_mismatch_witness :
    ([] : List Value).length ≠ [ValueType.i32].length
    ∧ invokeFunction trivialPlatform ⟨⟨[ValueType.i32], ResultType.none⟩, 0⟩ []
        = InvokeOutcome.exn ⟨ExceptionCause.invokeSignatureMismatch, []⟩ :=
  ⟨by decide,
    invokeFunction_signature_mismatch trivialPlatform ⟨⟨[ValueType.i32], ResultType.none⟩, 0⟩ []
      (Or.inl (by decide))⟩

/-- For a well-typed argument list, `invokeFunction` reduces to running the
invoke thunk on the marshalled slot buffer and dispatching on its outcome. -/
theorem invokeFunction_welltyped_eq (p : Platform) (f : FunctionInstance)
    (args : List Value) (hty : args.map Value.type = f.type.parameters) :
    invokeFunction p f args =
      match p.runThunk f.nativeFunction
          (args.map Value.i64 ++ List.replicate (getArity f.type.ret) 0) with
      | ThunkOutcome.success thunkMemoryAfter =>
        if f.type.ret ≠ ResultType.none then
          InvokeOutcome.ok ⟨f.type.ret, thunkMemoryAfter.getD f.type.parameters.length 0⟩
        else
          InvokeOutcome.ok ⟨ResultType.none, 0⟩
      | ThunkOutcome.trap trapType trapOperand trapCallStack =>
        let truncated := truncateStack p.capturedCallStack trapCallStack
        let callStackDescription := describeCallStack p truncated
        match trapType with
        | HardwareTrapType.accessViolation =>
          if p.isAddressOwnedByTable trapOperand then
            InvokeOutcome.exn ⟨ExceptionCause.undefinedTableElement, callStackDescription⟩
          else if p.isAddressOwnedByMemory trapOperand then
            InvokeOutcome.exn ⟨ExceptionCause.accessViolation, callStackDescription⟩
          else
            InvokeOutcome.fatal callStackDescription
        | HardwareTrapType.stackOverflow =>
          InvokeOutcome.exn ⟨ExceptionCause.stackOverflow, callStackDescription⟩
        | HardwareTrapType.intDivideByZeroOrOverflow =>
          InvokeOutcome.exn ⟨ExceptionCause.integerDivideByZeroOrIntegerOverflow, callStackDescription⟩ := by
  have hlen : args.length = f.type.parameters.length := by
    rw [← hty, List.length_map]
  unfold invokeFunction
  rw [if_neg (fun hc => hc hlen), ← hty, marshalParameters_ok_of_welltyped]

/-- C4: `isA` is false whenever the object's kind differs from the expected
type's kind, for every pair of differing kinds. -/
theorem isA_false_of_kind_mismatch (o : Object) (t : ObjectType)
    (h : t.kind ≠ o.kind) : isA o t = false := by
  unfold isA
  rw [if_pos h]

/-- Witness for C4: a global instance checked against a memory type. -/
theorem isA_false_of_kind_mismatch_witness :
    (ObjectType.memory ⟨⟨0, 0⟩⟩).kind ≠ (Object.global ⟨⟨ValueType.i32, true⟩, ⟨ValueType.i32, 0⟩⟩).kind
    ∧ isA (Object.global ⟨⟨ValueType.i32, true⟩, ⟨ValueType.i32, 0⟩⟩)
        (ObjectType.memory ⟨⟨0, 0⟩⟩) = false :=
  ⟨by decide,
    isA_false_of_kind_mismatch (Object.global ⟨⟨ValueType.i32, true⟩, ⟨ValueType.i32, 0⟩⟩)
      (ObjectType.memory ⟨⟨0, 0⟩⟩) (by decide)⟩

/-- C3: for a table object and an expected table type, `isA` holds iff the
element types agree and the object's size bound is contained in the expected
size bound; for a memory object and an expected memory type, iff the object's
size bound is contained in the expected one; and in both cases `isA` is false
when the object's bound leaves the expected bound on either endpoint.
(`isSubset` is modelled from the spec, its definition being outside the
available sources.) -/
theorem isA_size_bound_containment :
    (∀ (t : TableInstance) (et : TableType),
      isA (Object.table t) (ObjectType.table et) = true ↔
        (et.elementType = t.type.elementType ∧
          et.size.min ≤ t.type.size.min ∧ t.type.size.max ≤ et.size.max))
    ∧ (∀ (m : MemoryInstance) (em : MemoryType),
      isA (Object.memory m) (ObjectType.memory em) = true ↔
        (em.size.min ≤ m.type.size.min ∧ m.type.size.max ≤ em.size.max))
    ∧ (∀ (t : TableInstance) (et : TableType),
      (t.type.size.min < et.size.min ∨ et.size.max < t.type.size.max) →
        isA (Object.table t) (ObjectType.table et) = false)
    ∧ (∀ (m : MemoryInstance) (em : MemoryType),
      (m.type.size.min < em.size.min ∨ em.size.max < m.type.size.max) →
        isA (Object.memory m) (ObjectType.memory em) = false) := by
  refine ⟨?_, ?_, ?_, ?_⟩
  · intro t et
    simp [isA, isSubset, ObjectType.kind, Object.kind, and_assoc]
  · intro m em
    simp [isA, isSubset, ObjectType.kind, Object.kind]
  · intro t et h
    simp only [isA, isSubset, ObjectType.kind, Object.kind]
    simp
    intros
    omega
  · intro m em h
    simp only [isA, isSubset, ObjectType.kind, Object.kind]
    simp
    intros
    omega

/-- Witness for C3: a table whose bound sits strictly inside the expected
bound passes, and a memory whose maximum exceeds the expected maximum fails. -/
theorem isA_size_bound_containment_witness :
    isA (Object.table ⟨⟨TableElementType.anyfunc, ⟨2, 5⟩⟩⟩)
        (ObjectType.table ⟨TableElementType.anyfunc, ⟨1, 6⟩⟩) = true
    ∧ isA (Object.memory ⟨⟨⟨1, 9⟩⟩⟩) (ObjectType.memory ⟨⟨1, 8⟩⟩) = false :=
  ⟨(isA_size_bound_containment.1 ⟨⟨TableElementType.anyfunc, ⟨2, 5⟩⟩⟩
      ⟨TableElementType.anyfunc, ⟨1, 6⟩⟩).mpr (by decide),
    isA_size_bound_containment.2.2.2 ⟨⟨⟨1, 9⟩⟩⟩ ⟨⟨1, 8⟩⟩ (Or.inr (by decide))⟩

/-- C8: reading a freshly created global returns exactly the initial value,
and on a mutable global a checked set returns the previously stored value
while a subsequent get returns the new value. The hypotheses are the
assertion-checked preconditions of the source plus the stored-value
well-typedness that `createGlobal`/`setGlobalValue` preserve. -/
theorem global_get_set_roundtrip :
    (∀ (t : GlobalType) (v : Value), v.type = t.valueType →
      getGlobalValue (createGlobal t v) = v)
    ∧ ∀ (g : GlobalInstance) (v2 : Value),
      g.type.isMutable = true → v2.type = g.type.valueType →
      g.value.type = g.type.valueType →
      (setGlobalValue g v2).1 = g.value ∧ getGlobalValue (setGlobalValue g v2).2 = v2 := by
  constructor
  · intro t v h
    cases v with
    | mk vt payload =>
      simp only [getGlobalValue, createGlobal] at *
      simp [h.symm]
  · intro g v2 _ h2 hstored
    cases g with
    | mk gt gv =>
      cases gv with
      | mk vt payload =>
        cases v2 with
        | mk vt2 payload2 =>
          simp only [setGlobalValue, getGlobalValue] at *
          subst h2
          simp_all

/-- C2: for a well-typed invocation whose native call faults, an illegal
memory access raises `undefinedTableElement` if the faulting address is owned
by a table, else `accessViolation` if owned by a memory, and otherwise ends
in a fatal process abort carrying the attributed call-stack description (not
a catchable exception); stack exhaustion raises `stackOverflow` and an
integer-division fault raises `integerDivideByZeroOrIntegerOverflow`. -/
theorem invokeFunction_trap_classification (p : Platform) (f : FunctionInstance)
    (args : List Value) (hty : args.map Value.type = f.type.parameters)
    (trapType : HardwareTrapType) (trapOperand : Nat) (trapCallStack : CallStack)
    (hrun : p.runThunk f.nativeFunction
        (args.map Value.i64 ++ List.replicate (getArity f.type.ret) 0)
      = ThunkOutcome.trap trapType trapOperand trapCallStack) :
    invokeFunction p f args =
      (let callStackDescription :=
        describeCallStack p (truncateStack p.capturedCallStack trapCallStack)
      match trapType with
      | HardwareTrapType.accessViolation =>
        if p.isAddressOwnedByTable trapOperand then
          InvokeOutcome.exn ⟨ExceptionCause.undefinedTableElement, callStackDescription⟩
        else if p.isAddressOwnedByMemory trapOperand then
          InvokeOutcome.exn ⟨ExceptionCause.accessViolation, callStackDescription⟩
        else
          InvokeOutcome.fatal callStackDescription
      | HardwareTrapType.stackOverflow =>
        InvokeOutcome.exn ⟨ExceptionCause.stackOverflow, callStackDescription⟩
      | HardwareTrapType.intDivideByZeroOrOverflow =>
        InvokeOutcome.exn ⟨ExceptionCause.integerDivideByZeroOrIntegerOverflow, callStackDescription⟩) := by
  rw [invokeFunction_welltyped_eq p f args hty]
  simp only [hrun]
  cases trapType <;> rfl

/-- A platform whose thunk always faults with an access violation at address
5, which is owned by a table. -/
def tableTrapPlatform : Platform :=
  ⟨fun _ => Option.none, fun _ => Option.none, ⟨[]⟩,
    fun _ _ => ThunkOutcome.trap HardwareTrapType.accessViolation 5 ⟨[⟨3⟩]⟩,
    fun a => decide (a = 5), fun _ => false⟩

/-- A nullary function with no result. -/
def nullaryFunction : FunctionInstance := ⟨⟨[], ResultType.none⟩, 0⟩

/-- Witness for C2: an access violation at a table-owned address raises
`undefinedTableElement`. -/
theorem invokeFunction_trap_classification_witness :
    tableTrapPlatform.runThunk 0 (([] : List Value).map Value.i64 ++ List.replicate (getArity ResultType.none) 0)
      = ThunkOutcome.trap HardwareTrapType.accessViolation 5 ⟨[⟨3⟩]⟩
    ∧ invokeFunction tableTrapPlatform nullaryFunction []
      = InvokeOutcome.exn ⟨ExceptionCause.undefinedTableElement, []⟩ :=
  ⟨rfl,
    invokeFunction_trap_classification tableTrapPlatform nullaryFunction [] rfl
      HardwareTrapType.accessViolation 5 ⟨[⟨3⟩]⟩ rfl⟩

/-- C5: for a well-typed invocation, the slot buffer handed to the invoke
thunk has (parameter count + result arity) slots whose initial segment holds
the arguments' raw 64-bit payloads in declared parameter order, with the
trailing slot reserved for the result; on fault-free completion, a signature
with a result yields a `Result` tagged with the declared result type whose
payload is read from slot index (parameter count), and a signature without a
result yields the empty `Result` without reading any result slot (the
returned value does not depend on the thunk memory contents). -/
theorem invokeFunction_marshalling_and_result (p : Platform) (f : FunctionInstance)
    (args : List Value) (hty : args.map Value.type = f.type.parameters)
    (thunkMemoryAfter : List Nat)
    (hrun : p.runThunk f.nativeFunction
        (args.map Value.i64 ++ List.replicate (getArity f.type.ret) 0)
      = ThunkOutcome.success thunkMemoryAfter) :
    (args.map Value.i64 ++ List.replicate (getArity f.type.ret) 0).length
        = f.type.parameters.length + getArity f.type.ret
    ∧ (args.map Value.i64 ++ List.replicate (getArity f.type.ret) 0).take f.type.parameters.length
        = args.map Value.i64
    ∧ invokeFunction p f args =
        (if f.type.ret = ResultType.none then InvokeOutcome.ok ⟨ResultType.none, 0⟩
        else InvokeOutcome.ok ⟨f.type.ret, thunkMemoryAfter.getD f.type.parameters.length 0⟩) := by
  have hlen : (args.map Value.i64).length = f.type.parameters.length := by
    rw [List.length_map, ← hty, List.length_map]
  refine ⟨?_, ?_, ?_⟩
  · rw [List.length_append, hlen, List.length_replicate]
  · rw [← hlen, List.take_left]
  · rw [invokeFunction_welltyped_eq p f args hty]
    simp only [hrun]
    by_cases hret : f.type.ret = ResultType.none
    · simp [hret]
    · simp [hret]

/-- A platform whose thunk completes, leaving 42 in the result slot of a
one-parameter signature. -/
def successPlatform : Platform :=
  ⟨fun _ => Option.none, fun _ => Option.none, ⟨[]⟩,
    fun _ _ => ThunkOutcome.success [7, 42], fun _ => false, fun _ => false⟩

/-- Witness for C5: invoking an (i32 → i64) function with argument 7 returns
the result 42 read from slot index 1. -/
theorem invokeFunction_marshalling_and_result_witness :
    successPlatform.runThunk 0
        (([⟨ValueType.i32, 7⟩] : List Value).map Value.i64 ++ List.replicate (getArity ResultType.i64) 0)
      = ThunkOutcome.success [7, 42]
    ∧ invokeFunction successPlatform ⟨⟨[ValueType.i32], ResultType.i64⟩, 0⟩ [⟨ValueType.i32, 7⟩]
      = InvokeOutcome.ok ⟨ResultType.i64, 42⟩ :=
  ⟨rfl,
    (invokeFunction_marshalling_and_result successPlatform
      ⟨⟨[ValueType.i32], ResultType.i64⟩, 0⟩ [⟨ValueType.i32, 7⟩] rfl [7, 42] rfl).2.2⟩

/-- Witness for C8: create an i64 global holding 7, then set it to 9. -/
theorem global_get_set_roundtrip_witness :
    getGlobalValue (createGlobal ⟨ValueType.i64, true⟩ ⟨ValueType.i64, 7⟩) = ⟨ValueType.i64, 7⟩
    ∧ (setGlobalValue (createGlobal ⟨ValueType.i64, true⟩ ⟨ValueType.i64, 7⟩) ⟨ValueType.i64, 9⟩).1
        = ⟨ValueType.i64, 7⟩
    ∧ getGlobalValue
        (setGlobalValue (createGlobal ⟨ValueType.i64, true⟩ ⟨ValueType.i64, 7⟩) ⟨ValueType.i64, 9⟩).2
        = ⟨ValueType.i64, 9⟩ :=
  ⟨global_get_set_roundtrip.1 ⟨ValueType.i64, true⟩ ⟨ValueType.i64, 7⟩ (by decide),
    (global_get_set_roundtrip.2 (createGlobal ⟨ValueType.i64, true⟩ ⟨ValueType.i64, 7⟩)
      ⟨ValueType.i64, 9⟩ (by decide) (by decide) (by decide)).1,
    (global_get_set_roundtrip.2 (createGlobal ⟨ValueType.i64, true⟩ ⟨ValueType.i64, 7⟩)
      ⟨ValueType.i64, 9⟩ (by decide) (by decide) (by decide)).2⟩

/-- A platform whose caller baseline stack has two frames while its thunk
faults with a one-frame trap-time stack. -/
def shallowTrapPlatform : Platform :=
  ⟨fun _ => Option.none, fun _ => Option.none, ⟨[⟨10⟩, ⟨11⟩]⟩,
    fun _ _ => ThunkOutcome.trap HardwareTrapType.stackOverflow 0 ⟨[⟨1⟩]⟩,
    fun _ => false, fun _ => false⟩

/-- Counterexample to C6: with a caller baseline of two frames and a
fault-time stack of one frame, the truncation removes nothing at all — the
raised exception still describes the single fault-time frame — contradicting
that at least one frame (the immediate calling frame) is always removed. -/
theorem invokeFunction_truncation_counterexample :
    invokeFunction shallowTrapPlatform nullaryFunction []
      = InvokeOutcome.exn ⟨ExceptionCause.stackOverflow, ["<unknown function>"]⟩
    ∧ truncateStack shallowTrapPlatform.capturedCallStack ⟨[⟨1⟩]⟩ = ⟨[⟨1⟩]⟩ :=
  ⟨rfl, rfl⟩

/-- C6 amended: before the fault is classified, the fault-time call stack is
truncated by removing its last (caller baseline frame count + 1) frames —
hence at least one frame — whenever it has at least that many frames;
otherwise (fault-time stack not deeper than the baseline) no frames are
removed at all. -/
theorem truncateStack_amended (callerStack trapCallStack : CallStack) :
    (callerStack.stackFrames.length + 1 ≤ trapCallStack.stackFrames.length →
      (truncateStack callerStack trapCallStack).stackFrames
        = trapCallStack.stackFrames.take
            (trapCallStack.stackFrames.length - (callerStack.stackFrames.length + 1))
      ∧ (truncateStack callerStack trapCallStack).stackFrames.length
          < trapCallStack.stackFrames.length)
    ∧ (trapCallStack.stackFrames.length ≤ callerStack.stackFrames.length →
      truncateStack callerStack trapCallStack = trapCallStack) := by
  constructor
  · intro h
    unfold truncateStack
    rw [if_pos h]
    constructor
    · rw [Nat.sub_sub]
    · rw [List.length_take]
      omega
  · intro h
    unfold truncateStack
    rw [if_neg (by omega)]

/-- Witness for C6 (amended): a one-frame baseline against a three-frame
fault-time stack keeps exactly the first frame. -/
theorem truncateStack_amended_witness :
    (1 : Nat) + 1 ≤ 3
    ∧ (truncateStack ⟨[⟨0⟩]⟩ ⟨[⟨1⟩, ⟨2⟩, ⟨3⟩]⟩).stackFrames
        = ([⟨1⟩, ⟨2⟩, ⟨3⟩] : List StackFrame).take (3 - (1 + 1))
    ∧ (truncateStack ⟨[⟨0⟩]⟩ ⟨[⟨1⟩, ⟨2⟩, ⟨3⟩]⟩).stackFrames.length < 3 :=
  ⟨by decide,
    ((truncateStack_amended ⟨[⟨0⟩]⟩ ⟨[⟨1⟩, ⟨2⟩, ⟨3⟩]⟩).1 (by decide)).1,
    ((truncateStack_amended ⟨[⟨0⟩]⟩ ⟨[⟨1⟩, ⟨2⟩, ⟨3⟩]⟩).1 (by decide)).2⟩

/-- C10: on a fault, if the fault-time stack has at least one more frame than
the caller baseline, the frames kept are an initial segment of the fault-time
stack and the removed trailing segment has exactly (baseline frame count + 1)
frames; otherwise nothing is removed and the fault-time stack is described
untruncated. `truncateStack` followed by `describeCallStack` is exactly how
`invokeFunction` builds the description attached to the raised exception. -/
theorem truncateStack_exact_removal (p : Platform) (trapCallStack : CallStack) :
    (p.capturedCallStack.stackFrames.length + 1 ≤ trapCallStack.stackFrames.length →
      trapCallStack.stackFrames
        = (truncateStack p.capturedCallStack trapCallStack).stackFrames
            ++ trapCallStack.stackFrames.drop
                (trapCallStack.stackFrames.length
                  - (p.capturedCallStack.stackFrames.length + 1))
      ∧ (trapCallStack.stackFrames.drop
            (trapCallStack.stackFrames.length
              - (p.capturedCallStack.stackFrames.length + 1))).length
          = p.capturedCallStack.stackFrames.length + 1)
    ∧ (trapCallStack.stackFrames.length < p.capturedCallStack.stackFrames.length + 1 →
      describeCallStack p (truncateStack p.capturedCallStack trapCallStack)
        = describeCallStack p trapCallStack) := by
  constructor
  · intro h
    constructor
    · unfold truncateStack
      rw [if_pos h, Nat.sub_sub]
      exact (List.take_append_drop _ _).symm
    · rw [List.length_drop]
      omega
  · intro h
    unfold truncateStack
    rw [if_neg (by omega)]

/-- A platform with a one-frame caller baseline stack. -/
def oneFramePlatform : Platform :=
  ⟨fun _ => Option.none, fun _ => Option.none, ⟨[⟨9⟩]⟩,
    fun _ _ => ThunkOutcome.success [], fun _ => false, fun _ => false⟩

/-- Witness for C10: a one-frame baseline against a three-frame fault-time
stack removes exactly the trailing two frames. -/
theorem truncateStack_exact_removal_witness :
    oneFramePlatform.capturedCallStack.stackFrames.length + 1 ≤ 3
    ∧ ([⟨1⟩, ⟨2⟩, ⟨3⟩] : List StackFrame)
        = (truncateStack oneFramePlatform.capturedCallStack ⟨[⟨1⟩, ⟨2⟩, ⟨3⟩]⟩).stackFrames
            ++ ([⟨1⟩, ⟨2⟩, ⟨3⟩] : List StackFrame).drop
                (3 - (oneFramePlatform.capturedCallStack.stackFrames.length + 1))
    ∧ (([⟨1⟩, ⟨2⟩, ⟨3⟩] : List StackFrame).drop
          (3 - (oneFramePlatform.capturedCallStack.stackFrames.length + 1))).length
        = oneFramePlatform.capturedCallStack.stackFrames.length + 1 :=
  ⟨by decide,
    ((truncateStack_exact_removal oneFramePlatform ⟨[⟨1⟩, ⟨2⟩, ⟨3⟩]⟩).1 (by decide)).1,
    ((truncateStack_exact_removal oneFramePlatform ⟨[⟨1⟩, ⟨2⟩, ⟨3⟩]⟩).1 (by decide)).2⟩

/-- A platform whose JIT recognizes every address, with a one-frame current
call stack. -/
def jitOnlyPlatform : Platform :=
  ⟨fun _ => some "jit frame", fun _ => Option.none, ⟨[⟨42⟩]⟩,
    fun _ _ => ThunkOutcome.success [], fun _ => false, fun _ => false⟩

/-- Counterexample to C7: an arity-mismatched invocation raises the
signature-mismatch exception with an empty call-stack description, which is
not the exception `causeException` raises at the same point (that one
describes the current one-frame stack): the mismatch path does not go through
`causeException`. -/
theorem causeException_not_used_counterexample :
    invokeFunction jitOnlyPlatform ⟨⟨[ValueType.i32], ResultType.none⟩, 0⟩ []
      = InvokeOutcome.exn ⟨ExceptionCause.invokeSignatureMismatch, []⟩
    ∧ causeException jitOnlyPlatform ExceptionCause.invokeSignatureMismatch
      ≠ ⟨ExceptionCause.invokeSignatureMismatch, []⟩ :=
  ⟨rfl, by decide⟩

/-- C7 amended: `causeException` captures the current call stack, describes
it, and raises a structured exception carrying both the cause and that
description (the raised value; it never returns normally); however, the
signature mismatches raised by `invokeFunction` are thrown directly with an
empty call-stack description rather than through `causeException`. -/
theorem causeException_contract (p : Platform) (cause : ExceptionCause) :
    (causeException p cause).cause = cause
    ∧ (causeException p cause).callStack = describeCallStack p p.capturedCallStack
    ∧ ∀ (f : FunctionInstance) (args : List Value),
      (args.length ≠ f.type.parameters.length ∨
        ∃ i, i < args.length ∧
          (args.getD i ⟨ValueType.i32, 0⟩).type ≠ f.type.parameters.getD i ValueType.i32) →
      invokeFunction p f args
        = InvokeOutcome.exn ⟨ExceptionCause.invokeSignatureMismatch, []⟩ :=
  ⟨rfl, rfl, fun f args h => invokeFunction_mismatch_aux p f args h⟩

/-- Witness for C7 (amended): the contract evaluated on the one-frame
platform, with a sample mismatched invocation. -/
theorem causeException_contract_witness :
    (causeException jitOnlyPlatform ExceptionCause.stackOverflow).cause
      = ExceptionCause.stackOverflow
    ∧ (causeException jitOnlyPlatform ExceptionCause.stackOverflow).callStack
      = describeCallStack jitOnlyPlatform jitOnlyPlatform.capturedCallStack
    ∧ invokeFunction jitOnlyPlatform nullaryFunction [⟨ValueType.i32, 0⟩]
      = InvokeOutcome.exn ⟨ExceptionCause.invokeSignatureMismatch, []⟩ :=
  ⟨(causeException_contract jitOnlyPlatform ExceptionCause.stackOverflow).1,
    (causeException_contract jitOnlyPlatform ExceptionCause.stackOverflow).2.1,
    (causeException_contract jitOnlyPlatform ExceptionCause.stackOverflow).2.2
      nullaryFunction [⟨ValueType.i32, 0⟩] (Or.inl (by decide))⟩

/-- The describer loop yields one description per frame. -/
theorem describeFrames_length (p : Platform) (l : List StackFrame) :
    (describeFrames p l).length = l.length := by
  induction l with
  | nil => rfl
  | cons frame rest ih => simp [describeFrames, ih]

/-- The describer loop describes the i-th frame at the i-th position. -/
theorem describeFrames_getD (p : Platform) (l : List StackFrame) (i : Nat)
    (h : i < l.length) :
    (describeFrames p l).getD i "" = describeFrame p (l.getD i ⟨0⟩) := by
  induction l generalizing i with
  | nil => simp at h
  | cons frame rest ih =>
    match i with
    | 0 => rfl
    | i + 1 => exact ih i (by simpa using h)

/-- Counterexample to C9: when neither describer recognizes a frame, the
placeholder emitted is "<unknown function>", not "unknown frame". -/
theorem describeCallStack_placeholder_counterexample :
    describeCallStack trivialPlatform ⟨[⟨5⟩]⟩ = ["<unknown function>"]
    ∧ ("<unknown function>" : String) ≠ "unknown frame" :=
  ⟨rfl, by decide⟩

/-- C9 amended: `describeCallStack` returns exactly one description string
per frame, in frame order; each frame is described by the code generator if
it recognizes the address, else by the platform symbol resolver if it
succeeds, else by the fixed placeholder "<unknown function>". -/
theorem describeCallStack_per_frame (p : Platform) (callStack : CallStack) :
    (describeCallStack p callStack).length = callStack.stackFrames.length
    ∧ (∀ i, i < callStack.stackFrames.length →
      (describeCallStack p callStack).getD i ""
        = describeFrame p (callStack.stackFrames.getD i ⟨0⟩))
    ∧ (∀ frame : StackFrame,
      describeFrame p frame
        = match p.jitDescribe frame.ip with
          | some s => s
          | Option.none =>
            match p.platformDescribe frame.ip with
            | some s => s
            | Option.none => "<unknown function>") :=
  ⟨describeFrames_length p callStack.stackFrames,
    fun i h => describeFrames_getD p callStack.stackFrames i h,
    fun _ => rfl⟩

/-- Witness for C9 (amended): a single unrecognized frame yields a singleton
description. -/
theorem describeCallStack_per_frame_witness :
    (describeCallStack trivialPlatform ⟨[⟨5⟩]⟩).length = 1
    ∧ (0 : Nat) < 1
    ∧ (describeCallStack trivialPlatform ⟨[⟨5⟩]⟩).getD 0 ""
      = describeFrame trivialPlatform ⟨5⟩ :=
  ⟨(describeCallStack_per_frame trivialPlatform ⟨[⟨5⟩]⟩).1, by decide,
    (describeCallStack_per_frame trivialPlatform ⟨[⟨5⟩]⟩).2.1 0 (by decide)⟩

end Runtime
